import Mathlib

/-!
Shallow embedding of the anti-abuse delete-throttling and trust-scoring
subsystem of the homework-management web app (`app.py`).

Modelling conventions:
* Python `time.time()` / `datetime` timestamps are modelled as integer seconds
  (ℤ); a `now` parameter is threaded explicitly wherever the source reads the
  clock. The rate-limit policy only subtracts and compares timestamps, which is
  exact on integers, and the `int()` truncation applied to the cooldown
  remainder is the identity on integer-valued inputs.
* Python dicts are modelled as association lists (`List (String × α)`) with
  dict semantics: updating an existing key keeps its position, a new key is
  appended at the end.
* `defaultdict` reads are modelled with `Option.getD` defaults; the in-place
  mutation of the per-user deque performed by `can_user_delete` is modelled by
  returning the pruned window and writing it back into the state.
-/

namespace HomeworkApp

/-! ### DELETE_RULES configuration (source: `DELETE_RULES` dict) -/

def max_per_hour : ℕ := 3
def max_per_day : ℕ := 10
def cooldown_minutes : ℕ := 5
def require_reason : Bool := true
def default_trust_score : ℤ := 70

/-! ### Data model -/

/-- One entry of `stats['last_actions']`. -/
structure ActionRecord where
  action : String
  homework_id : Option ℤ
  timestamp : ℤ
deriving DecidableEq, Repr

/-- One entry of the `user_stats` dict. -/
structure UserStats where
  homeworks_added : ℕ
  homeworks_completed : ℕ
  homeworks_deleted : ℕ
  delete_reasons : List (String × ℕ)
  last_actions : List ActionRecord
  trust_score : ℤ
  first_seen : ℤ
deriving DecidableEq, Repr

/-- One entry of `completions[user_id]`. -/
structure Completion where
  completed : Bool
  completed_at : Option ℤ
deriving DecidableEq, Repr

/-- One entry of the `homeworks` list (fields from `add_homework`). -/
structure Homework where
  id : ℤ
  code : String
  subject : String
  content : String
  create_date : String
  due_date : String
deriving DecidableEq, Repr

/-- The mutable module-level state of `app.py`. -/
structure AppState where
  homeworks : List Homework
  completions : List (String × List (String × Completion))
  user_stats : List (String × UserStats)
  delete_operations : List (String × List ℤ)
  user_trust_scores : List (String × ℤ)
deriving DecidableEq, Repr

/-! ### Dict helpers (Python dict semantics on association lists) -/

/-- `d.get(k)` on a dict. -/
def lookup {α : Type} (k : String) : List (String × α) → Option α
  | [] => none
  | (k', v) :: rest => if k' = k then some v else lookup k rest

/-- `d[k] = v` on a dict: replace in place if present, else append. -/
def setKey {α : Type} (k : String) (v : α) : List (String × α) → List (String × α)
  | [] => [(k, v)]
  | (k', v') :: rest => if k' = k then (k, v) :: rest else (k', v') :: setKey k v rest

/-- `del d[k]` on a dict (no-op when absent). -/
def delKey {α : Type} (k : String) : List (String × α) → List (String × α)
  | [] => []
  | (k', v') :: rest => if k' = k then rest else (k', v') :: delKey k rest

/-- Python `l[-n:]`: the last `n` elements. -/
def lastN {α : Type} (n : ℕ) (l : List α) : List α := l.drop (l.length - n)

/-! ### Reputation tracker (source: `update_user_stats`, `calculate_trust_score`) -/

/-- The stats record created on a user's first action. -/
def default_user_stats (now : ℤ) : UserStats :=
  { homeworks_added := 0
    homeworks_completed := 0
    homeworks_deleted := 0
    delete_reasons := []
    last_actions := []
    trust_score := default_trust_score
    first_seen := now }

/-- `user_trust_scores.get(user_id, 70)` — the running trust score. -/
def get_trust_score (user_id : String) (s : AppState) : ℤ :=
  (lookup user_id s.user_trust_scores).getD default_trust_score

/-- `defaultdict(int)` increment: `tallies[reason] += 1`. -/
def tally_incr (reason : String) (tallies : List (String × ℕ)) : List (String × ℕ) :=
  setKey reason ((lookup reason tallies).getD 0 + 1) tallies

/-- Source `update_user_stats(user_id, action, homework_id)`. -/
def update_user_stats (now : ℤ) (user_id : String) (action : String)
    (homework_id : Option ℤ) (s : AppState) : AppState :=
  let stats := (lookup user_id s.user_stats).getD (default_user_stats now)
  let stats :=
    if action = "add" then
      { stats with homeworks_added := stats.homeworks_added + 1 }
    else if action = "complete" then
      { stats with homeworks_completed := stats.homeworks_completed + 1 }
    else if action = "delete" then
      { stats with homeworks_deleted := stats.homeworks_deleted + 1 }
    else stats
  let trust_scores :=
    if action = "add" then
      setKey user_id (min 100 ((lookup user_id s.user_trust_scores).getD 70 + 2))
        s.user_trust_scores
    else if action = "complete" then
      setKey user_id (min 100 ((lookup user_id s.user_trust_scores).getD 70 + 3))
        s.user_trust_scores
    else if action = "delete" then
      setKey user_id (max 0 ((lookup user_id s.user_trust_scores).getD 70 - 2))
        s.user_trust_scores
    else s.user_trust_scores
  let stats :=
    { stats with
        last_actions :=
          lastN 50 (stats.last_actions ++
            [{ action := action, homework_id := homework_id, timestamp := now }]) }
  { s with
      user_stats := setKey user_id stats s.user_stats
      user_trust_scores := trust_scores }

/-- Source `calculate_trust_score(user_id)`: from-scratch recomputation. -/
def calculate_trust_score (user_id : String) (s : AppState) : ℤ :=
  match lookup user_id s.user_stats with
  | none => default_trust_score
  | some stats =>
    let base_score := default_trust_score
    let completed_ratio : ℚ :=
      (stats.homeworks_completed : ℚ) /
        ((max 1 (stats.homeworks_added + stats.homeworks_completed) : ℕ) : ℚ)
    let delete_ratio : ℚ :=
      (stats.homeworks_deleted : ℚ) /
        ((max 1 (stats.homeworks_added + stats.homeworks_completed +
          stats.homeworks_deleted) : ℕ) : ℚ)
    let base_score :=
      if completed_ratio > (0.7 : ℚ) then base_score + 20
      else if completed_ratio > (0.3 : ℚ) then base_score + 10
      else base_score
    let base_score :=
      if delete_ratio > (0.5 : ℚ) then base_score - 30
      else if delete_ratio > (0.3 : ℚ) then base_score - 15
      else base_score
    max 0 (min 100 base_score)

/-! ### Delete rate limiter (source: `can_user_delete`, `record_delete_operation`) -/

/-- The user's delete deque, `delete_operations[user_id]` (`defaultdict(deque)`). -/
def getWindow (user_id : String) (s : AppState) : List ℤ :=
  (lookup user_id s.delete_operations).getD []

/-- The front-eviction loop: `while user_deletes and now - user_deletes[0] > 3600: popleft`. -/
def pruneWindow (now : ℤ) : List ℤ → List ℤ
  | [] => []
  | t :: rest => if now - t > 3600 then pruneWindow now rest else t :: rest

def cap_message (hour_count : ℕ) : String :=
  "每小时最多删除 " ++ toString max_per_hour ++ " 次（已用：" ++ toString hour_count ++ "次）"

def cooldown_message (remaining : ℤ) : String :=
  "请等待 " ++ toString remaining ++ " 秒后再删除"

def restricted_message : String := "信任分数过低，删除功能已被限制"

def permitted_message : String := "可以删除"

/-- Result of `can_user_delete`, together with the user's deque after the
in-place prune (the mutation the Python deque undergoes during the check). -/
structure DeleteCheck where
  can_delete : Bool
  message : String
  window : List ℤ
deriving DecidableEq, Repr

/-- Source `can_user_delete(user_id)`. -/
def can_user_delete (now : ℤ) (user_id : String) (s : AppState) : DeleteCheck :=
  let user_deletes := pruneWindow now (getWindow user_id s)
  let hour_count := user_deletes.length
  if hour_count ≥ max_per_hour then
    ⟨false, cap_message hour_count, user_deletes⟩
  else if user_deletes ≠ [] ∧
      now - (user_deletes.getLast?.getD 0) < (cooldown_minutes : ℤ) * 60 then
    -- Python wraps this in int(); identity on integer timestamps
    let remaining : ℤ :=
      (cooldown_minutes : ℤ) * 60 - (now - (user_deletes.getLast?.getD 0))
    ⟨false, cooldown_message remaining, user_deletes⟩
  else
    let trust_score := get_trust_score user_id s
    if trust_score < 30 then
      ⟨false, restricted_message, user_deletes⟩
    else
      -- tier selection computed in the source but never used
      let _max_daily : ℕ :=
        if trust_score < 60 then 3 else if trust_score < 80 then 6 else max_per_day
      ⟨true, permitted_message, user_deletes⟩

/-- Source `record_delete_operation(user_id)`: append `now` to the deque. -/
def record_delete_operation (now : ℤ) (user_id : String) (s : AppState) : AppState :=
  { s with
      delete_operations :=
        setKey user_id (getWindow user_id s ++ [now]) s.delete_operations }

/-! ### Delete operation (source: route handler `delete_homework`) -/

def missing_reason_message : String := "请提供删除原因"
def not_found_message : String := "作业不存在"
def delete_success_message : String := "作业删除成功"

/-- The `jsonify({'success': ..., 'error'/'message': ...})` payload. -/
structure ApiResult where
  success : Bool
  message : String
deriving DecidableEq, Repr

/-- `user_stats[user_id]['delete_reasons'][reason] += 1` (user present). -/
def tally_reason (user_id reason : String) (s : AppState) : AppState :=
  match lookup user_id s.user_stats with
  | some st =>
    { s with
        user_stats :=
          setKey user_id
            { st with delete_reasons := tally_incr reason st.delete_reasons }
            s.user_stats }
  | none => s

/-- Source route `delete_homework(hw_id)`; `reason = data['reason']` when the
JSON body carries one (`none` models a missing body or missing key). -/
def delete_homework (now : ℤ) (user_id : String) (hw_id : ℤ)
    (reason : Option String) (s : AppState) : ApiResult × AppState :=
  let check := can_user_delete now user_id s
  -- the deque was pruned in place during the check
  let s := { s with delete_operations := setKey user_id check.window s.delete_operations }
  if check.can_delete = false then
    (⟨false, check.message⟩, s)
  else if require_reason = true ∧ (reason = none ∨ reason = some "") then
    (⟨false, missing_reason_message⟩, s)
  else
    match s.homeworks.find? (fun hw => hw.id = hw_id) with
    | none => (⟨false, not_found_message⟩, s)
    | some _ =>
      let s :=
        { s with
            homeworks := s.homeworks.filter (fun hw => hw.id ≠ hw_id)
            completions := s.completions.map (fun p => (p.1, delKey (toString hw_id) p.2)) }
      let s := record_delete_operation now user_id s
      let s := update_user_stats now user_id "delete" (some hw_id) s
      let s :=
        match reason with
        | some r => tally_reason user_id r s
        | none => s
      (⟨true, delete_success_message⟩, s)

/-- A `record_action` event for one user: clock reading, action kind, homework id. -/
structure ActionEvent where
  now : ℤ
  action : String
  homework_id : Option ℤ
deriving DecidableEq, Repr

/-- Fold a sequence of `update_user_stats` calls for one user over the state. -/
def apply_actions (user_id : String) : List ActionEvent → AppState → AppState
  | [], s => s
  | e :: rest, s =>
    apply_actions user_id rest (update_user_stats e.now user_id e.action e.homework_id s)

/-- The empty starting state (fresh process, no persisted data). -/
def empty_state : AppState :=
  { homeworks := [], completions := [], user_stats := [],
    delete_operations := [], user_trust_scores := [] }

/-- The recomputation rule exactly as the spec states it (base 70, ratio
thresholds, clamp to [0,100]); compared against `calculate_trust_score`. -/
def recompute_score_spec (added completed deleted : ℕ) : ℤ :=
  let completed_ratio : ℚ := (completed : ℚ) / ((max 1 (added + completed) : ℕ) : ℚ)
  let delete_ratio : ℚ := (deleted : ℚ) / ((max 1 (added + completed + deleted) : ℕ) : ℚ)
  let bonus : ℤ :=
    if completed_ratio > (0.7 : ℚ) then 20
    else if completed_ratio > (0.3 : ℚ) then 10
    else 0
  let penalty : ℤ :=
    if delete_ratio > (0.5 : ℚ) then 30
    else if delete_ratio > (0.3 : ℚ) then 15
    else 0
  max 0 (min 100 (70 + bonus - penalty))

/-! ### Concrete states used by witnesses and counterexamples -/

/-- An add, a delete, then a completion by the same user. -/
def wit_events_4 : List ActionEvent :=
  [⟨1, "add", some 1⟩, ⟨2, "delete", some 1⟩, ⟨3, "complete", some 2⟩]

/-- A user whose running trust score has been driven down to 1. -/
def wit_state_5 : AppState :=
  { empty_state with user_trust_scores := [("u", 1)] }

/-- Stats with 0 added, 1 completed, 2 deleted (ratio 1 > 0.7 and 2/3 > 0.5). -/
def wit_stats_6 : UserStats :=
  { default_user_stats 0 with homeworks_completed := 1, homeworks_deleted := 2 }

/-- A user whose recorded stats are `wit_stats_6`. -/
def wit_state_6 : AppState :=
  { empty_state with user_stats := [("u", wit_stats_6)] }

/-- Rate-limited user: one stale and three fresh deletes in the window. -/
def cex_state_1 : AppState :=
  { empty_state with delete_operations := [("u", [0, 1000, 2000, 3000])] }

/-- Trust score 25 together with one stale and three fresh deletes. -/
def cex_state_8 : AppState :=
  { empty_state with
      user_trust_scores := [("u", 25)]
      delete_operations := [("u", [0, 1000, 2000, 3000])] }

/-- Trust score 25, one delete 400 s before the check (below cap, past
cooldown). -/
def wit_state_8 : AppState :=
  { empty_state with
      user_trust_scores := [("u", 25)]
      delete_operations := [("u", [100])] }

/-- One homework (id 1) and one stale delete in the requester's window. -/
def cex_state_9 : AppState :=
  { empty_state with
      homeworks := [{ id := 1, code := "A1", subject := "数学", content := "练习",
                      create_date := "01/01/2025", due_date := "02/01/2025" }]
      delete_operations := [("u", [0])] }

/-- One homework (id 1) and one fresh delete 400 s before the attempt. -/
def wit_state_9 : AppState :=
  { empty_state with
      homeworks := [{ id := 1, code := "A1", subject := "数学", content := "练习",
                      create_date := "01/01/2025", due_date := "02/01/2025" }]
      delete_operations := [("u", [100])] }

/-- Three deletes recorded within the last hour. -/
def wit_state_2 : AppState :=
  { empty_state with delete_operations := [("u", [10, 600, 1200])] }

/-- One delete recorded 50 seconds before the check. -/
def wit_state_3 : AppState :=
  { empty_state with delete_operations := [("u", [100])] }

/-- A window with one stale entry (older than an hour) and two fresh ones. -/
def wit_state_7 : AppState :=
  { empty_state with delete_operations := [("u", [0, 1000, 4000])] }

/-! ### Helper lemmas -/

lemma lookup_setKey_self {α : Type} (k : String) (v : α) (l : List (String × α)) :
    lookup k (setKey k v l) = some v := by
  induction l with
  | nil => simp [setKey, lookup]
  | cons p rest ih =>
    cases p with
    | mk k' v' =>
      by_cases h : k' = k
      · simp [setKey, lookup, h]
      · simp [setKey, lookup, h, ih]

/-- The deque returned by `can_user_delete` is always the pruned window. -/
lemma can_user_delete_window (now : ℤ) (u : String) (s : AppState) :
    (can_user_delete now u s).window = pruneWindow now (getWindow u s) := by
  simp only [can_user_delete]
  split_ifs <;> rfl

/-- Reading back a per-user window just written with `setKey`. -/
lemma getWindow_setKey (u : String) (w : List ℤ) (s : AppState) :
    getWindow u { s with delete_operations := setKey u w s.delete_operations } = w := by
  unfold getWindow
  simp [lookup_setKey_self]

/-- On a sorted window, every entry surviving the front-eviction loop is
within the trailing hour. -/
lemma mem_pruneWindow_fresh (now : ℤ) (w : List ℤ) (hs : w.Sorted (· ≤ ·)) :
    ∀ t ∈ pruneWindow now w, now - t ≤ 3600 := by
  induction w with
  | nil => simp [pruneWindow]
  | cons a rest ih =>
    rcases List.sorted_cons.mp hs with ⟨ha, hrest⟩
    rw [pruneWindow]
    by_cases hc : now - a > 3600
    · rw [if_pos hc]; exact ih hrest
    · rw [if_neg hc]
      intro t ht
      rcases List.mem_cons.mp ht with rfl | hmem
      · omega
      · have := ha t hmem; omega

/-- If every entry is within the trailing hour, the eviction loop is a no-op. -/
lemma pruneWindow_of_fresh (now : ℤ) (w : List ℤ)
    (h : ∀ t ∈ w, now - t ≤ 3600) : pruneWindow now w = w := by
  cases w with
  | nil => rfl
  | cons a rest =>
    have := h a (List.mem_cons_self a rest)
    rw [pruneWindow, if_neg (by omega)]

/-! ### Claims -/

/-- C2: after pruning entries older than 3600 s, a window still holding at
least `max_per_hour` (= 3) timestamps makes the permission check deny,
reporting the cap and the current usage count. -/
theorem hourly_cap_denies (now : ℤ) (u : String) (s : AppState)
    (h : max_per_hour ≤ (pruneWindow now (getWindow u s)).length) :
    (can_user_delete now u s).can_delete = false ∧
    (can_user_delete now u s).message =
      cap_message (pruneWindow now (getWindow u s)).length := by
  unfold can_user_delete
  rw [if_pos h]
  exact ⟨rfl, rfl⟩

/-- C2 witness: three permitted deletes within the hour, a fourth attempt in
the same hour is denied with the hourly-cap message. -/
theorem hourly_cap_denies_witness :
    max_per_hour ≤ (pruneWindow 1800 (getWindow "u" wit_state_2)).length ∧
    (can_user_delete 1800 "u" wit_state_2).can_delete = false ∧
    (can_user_delete 1800 "u" wit_state_2).message = cap_message 3 := by
  have h := hourly_cap_denies 1800 "u" wit_state_2 (by decide)
  exact ⟨by decide, h.1, by rw [h.2]; exact congrArg cap_message (by decide)⟩

/-- C3: a non-empty pruned window below the cap whose last entry is less than
300 s old makes the check deny with the cooldown message citing the remaining
seconds, a value in (0, 300]. -/
theorem cooldown_denies (now : ℤ) (u : String) (s : AppState)
    (hlen : (pruneWindow now (getWindow u s)).length < max_per_hour)
    (hne : pruneWindow now (getWindow u s) ≠ [])
    (hlast : now - (pruneWindow now (getWindow u s)).getLast?.getD 0 < 300)
    (hpast : (pruneWindow now (getWindow u s)).getLast?.getD 0 ≤ now) :
    (can_user_delete now u s).can_delete = false ∧
    (can_user_delete now u s).message =
      cooldown_message (300 - (now - (pruneWindow now (getWindow u s)).getLast?.getD 0)) ∧
    300 - (now - (pruneWindow now (getWindow u s)).getLast?.getD 0) ≤ 300 ∧
    0 < 300 - (now - (pruneWindow now (getWindow u s)).getLast?.getD 0) := by
  have hcool : (cooldown_minutes : ℤ) * 60 = 300 := by decide
  unfold can_user_delete
  rw [if_neg (by omega), if_pos (by rw [hcool]; exact ⟨hne, hlast⟩)]
  refine ⟨rfl, ?_, by omega, by omega⟩
  rw [hcool]

/-- C3 witness: a delete 50 s ago makes the next attempt denied with 250 s
remaining. -/
theorem cooldown_denies_witness :
    (can_user_delete 150 "u" wit_state_3).can_delete = false ∧
    (can_user_delete 150 "u" wit_state_3).message = cooldown_message 250 := by
  have h := cooldown_denies 150 "u" wit_state_3 (by decide) (by decide) (by decide) (by decide)
  exact ⟨h.1, by rw [h.2.1]; exact congrArg cooldown_message (by decide)⟩

/-- C7: the permission check first evicts all timestamps older than 3600 s, so
right after pruning the (sorted) window holds only entries of the trailing
hour, and a delete recorded more than 3600 s ago never counts toward the cap. -/
theorem check_prunes_window (now : ℤ) (u : String) (s : AppState)
    (hs : (getWindow u s).Sorted (· ≤ ·)) :
    (can_user_delete now u s).window = pruneWindow now (getWindow u s) ∧
    (∀ t ∈ (can_user_delete now u s).window, now - t ≤ 3600) ∧
    (∀ t ∈ getWindow u s, now - t > 3600 → t ∉ (can_user_delete now u s).window) := by
  refine ⟨can_user_delete_window now u s, ?_, ?_⟩
  · rw [can_user_delete_window now u s]
    exact mem_pruneWindow_fresh now _ hs
  · intro t _ hold hmem
    rw [can_user_delete_window now u s] at hmem
    have := mem_pruneWindow_fresh now _ hs t hmem
    omega

/-- C7 witness: with window `[0, 1000, 4000]` at `now = 4000`, the stale entry
`0` is evicted and the check works on `[1000, 4000]`. -/
theorem check_prunes_window_witness :
    (getWindow "u" wit_state_7).Sorted (· ≤ ·) ∧
    (can_user_delete 4000 "u" wit_state_7).window = [1000, 4000] ∧
    (0 : ℤ) ∉ (can_user_delete 4000 "u" wit_state_7).window := by
  have h := check_prunes_window 4000 "u" wit_state_7 (by decide)
  exact ⟨by decide, by decide, h.2.2 0 (by decide) (by decide)⟩

/-- `record_action` effect of one `update_user_stats` call on the running
trust score, by action kind. -/
lemma get_trust_score_update_eq (now : ℤ) (u : String) (a : String)
    (hw : Option ℤ) (s : AppState) :
    get_trust_score u (update_user_stats now u a hw s) =
      if a = "add" then min 100 (get_trust_score u s + 2)
      else if a = "complete" then min 100 (get_trust_score u s + 3)
      else if a = "delete" then max 0 (get_trust_score u s - 2)
      else get_trust_score u s := by
  unfold update_user_stats get_trust_score default_trust_score
  split_ifs <;> simp [lookup_setKey_self]

/-- The running score stays in [0,100] across any action sequence once it is
in range. -/
lemma apply_actions_score_range (u : String) (evs : List ActionEvent) :
    ∀ s : AppState, 0 ≤ get_trust_score u s → get_trust_score u s ≤ 100 →
      0 ≤ get_trust_score u (apply_actions u evs s) ∧
        get_trust_score u (apply_actions u evs s) ≤ 100 := by
  induction evs with
  | nil => intro s h1 h2; rw [apply_actions]; exact ⟨h1, h2⟩
  | cons e rest ih =>
    intro s h1 h2
    rw [apply_actions]
    apply ih
    · rw [get_trust_score_update_eq]; split_ifs <;> omega
    · rw [get_trust_score_update_eq]; split_ifs <;> omega

/-- C4: starting from an unseen user, after any sequence of recorded actions
the running trust score returned by `get_trust_score` stays in [0,100]. -/
theorem get_score_always_in_range (u : String) (evs : List ActionEvent)
    (s : AppState) (h : lookup u s.user_trust_scores = none) :
    0 ≤ get_trust_score u (apply_actions u evs s) ∧
      get_trust_score u (apply_actions u evs s) ≤ 100 := by
  have h0 : get_trust_score u s = 70 := by
    unfold get_trust_score; rw [h]; rfl
  exact apply_actions_score_range u evs s (by omega) (by omega)

/-- C4 witness: add, delete, complete from a fresh user ends at score 73,
inside [0,100]. -/
theorem get_score_always_in_range_witness :
    lookup "u" empty_state.user_trust_scores = none ∧
    0 ≤ get_trust_score "u" (apply_actions "u" wit_events_4 empty_state) ∧
    get_trust_score "u" (apply_actions "u" wit_events_4 empty_state) = 73 :=
  ⟨rfl, (get_score_always_in_range "u" wit_events_4 empty_state rfl).1, by decide⟩

/-- C5: `update_user_stats` nudges the running score by exactly +2 (add),
+3 (complete), −2 (delete), clamped to [0,100]; a delete subtracts exactly 2
unless the score is within 2 of 0, in which case it clamps at 0, and the
result is never negative. -/
theorem record_action_score_delta (now : ℤ) (u : String) (hw : Option ℤ)
    (s : AppState) :
    get_trust_score u (update_user_stats now u "add" hw s) =
      min 100 (get_trust_score u s + 2) ∧
    get_trust_score u (update_user_stats now u "complete" hw s) =
      min 100 (get_trust_score u s + 3) ∧
    get_trust_score u (update_user_stats now u "delete" hw s) =
      max 0 (get_trust_score u s - 2) ∧
    (2 ≤ get_trust_score u s →
      get_trust_score u (update_user_stats now u "delete" hw s) =
        get_trust_score u s - 2) ∧
    (get_trust_score u s < 2 →
      get_trust_score u (update_user_stats now u "delete" hw s) = 0) ∧
    0 ≤ get_trust_score u (update_user_stats now u "delete" hw s) := by
  have ha := get_trust_score_update_eq now u "add" hw s
  have hc := get_trust_score_update_eq now u "complete" hw s
  have hd := get_trust_score_update_eq now u "delete" hw s
  rw [if_pos rfl] at ha
  rw [if_neg (by decide), if_pos rfl] at hc
  rw [if_neg (by decide), if_neg (by decide), if_pos rfl] at hd
  refine ⟨ha, hc, hd, fun h2 => ?_, fun h2 => ?_, ?_⟩ <;> rw [hd] <;> omega

/-- C5 witness: a delete at running score 1 clamps to 0 rather than going
negative. -/
theorem record_action_score_delta_witness :
    get_trust_score "u" wit_state_5 < 2 ∧
    get_trust_score "u" (update_user_stats 9 "u" "delete" none wit_state_5) = 0 :=
  ⟨by decide, (record_action_score_delta 9 "u" none wit_state_5).2.2.2.2.1 (by decide)⟩

/-- C6: the from-scratch recomputation equals the spec formula (base 70,
ratio-threshold bonuses and penalties, clamp); an unseen user gets the
default 70. -/
theorem recompute_matches_spec (u : String) (s : AppState) :
    (∀ st, lookup u s.user_stats = some st →
      calculate_trust_score u s =
        recompute_score_spec st.homeworks_added st.homeworks_completed
          st.homeworks_deleted) ∧
    (lookup u s.user_stats = none → calculate_trust_score u s = 70) := by
  constructor
  · intro st hst
    unfold calculate_trust_score recompute_score_spec
    rw [hst]
    simp only [default_trust_score]
    split_ifs <;> norm_num
  · intro h
    unfold calculate_trust_score
    rw [h]
    rfl

/-- C6 witness: stats (added 0, completed 1, deleted 2) recompute to the
spec value. -/
theorem recompute_matches_spec_witness :
    lookup "u" wit_state_6.user_stats = some wit_stats_6 ∧
    calculate_trust_score "u" wit_state_6 = recompute_score_spec 0 1 2 :=
  ⟨rfl, (recompute_matches_spec "u" wit_state_6).1 wit_stats_6 rfl⟩

/-- C10: for a user with recorded stats the recomputed score always lies in
[40, 90], so the clamp never binds and the score is never below the
restriction threshold 30. -/
theorem recompute_score_bounded (u : String) (s : AppState) (st : UserStats)
    (h : lookup u s.user_stats = some st) :
    40 ≤ calculate_trust_score u s ∧ calculate_trust_score u s ≤ 90 ∧
    ¬(calculate_trust_score u s < 30) := by
  unfold calculate_trust_score
  rw [h]
  simp only [default_trust_score]
  split_ifs <;> norm_num

/-- C10 witness: the maximal-penalty stats still recompute to at least 40. -/
theorem recompute_score_bounded_witness :
    lookup "u" wit_state_6.user_stats = some wit_stats_6 ∧
    40 ≤ calculate_trust_score "u" wit_state_6 :=
  ⟨rfl, (recompute_score_bounded "u" wit_state_6 wit_stats_6 rfl).1⟩

/-- C1 counterexample: for a rate-limited user with a missing reason, the
route answers with the hourly-cap message, not the missing-reason message,
and the stored window is mutated (pruned) by the check. -/
theorem claim1_cex :
    (delete_homework 3700 "u" 1 none cex_state_1).1.success = false ∧
    (delete_homework 3700 "u" 1 none cex_state_1).1.message = cap_message 3 ∧
    (delete_homework 3700 "u" 1 none cex_state_1).1.message ≠ missing_reason_message ∧
    (delete_homework 3700 "u" 1 none cex_state_1).2.delete_operations ≠
      cex_state_1.delete_operations := by
  refine ⟨by decide, rfl, ?_, by decide⟩
  rw [show (delete_homework 3700 "u" 1 none cex_state_1).1.message =
        "每小时最多删除 3 次（已用：3次）" from rfl]
  decide

/-- C1 amended: the rate-limit check runs first and its message wins on
denial; when the limiter permits and the reason is empty or missing, the
route rejects with the missing-reason error and mutates nothing except that
the user's stored window is replaced by its pruned version. -/
theorem missing_reason_after_limiter (now : ℤ) (u : String) (hw_id : ℤ)
    (reason : Option String) (s : AppState)
    (hcan : (can_user_delete now u s).can_delete = true)
    (hreason : reason = none ∨ reason = some "") :
    (delete_homework now u hw_id reason s).1 = ⟨false, missing_reason_message⟩ ∧
    (delete_homework now u hw_id reason s).2.homeworks = s.homeworks ∧
    (delete_homework now u hw_id reason s).2.completions = s.completions ∧
    (delete_homework now u hw_id reason s).2.user_stats = s.user_stats ∧
    (delete_homework now u hw_id reason s).2.user_trust_scores =
      s.user_trust_scores ∧
    (delete_homework now u hw_id reason s).2.delete_operations =
      setKey u (pruneWindow now (getWindow u s)) s.delete_operations ∧
    ((∀ t ∈ getWindow u s, now - t ≤ 3600) →
      getWindow u (delete_homework now u hw_id reason s).2 = getWindow u s) ∧
    (∀ s' : AppState, (can_user_delete now u s').can_delete = false →
      (delete_homework now u hw_id reason s').1 =
        ⟨false, (can_user_delete now u s').message⟩) := by
  simp only [delete_homework]
  rw [if_neg (by simp [hcan]), if_pos ⟨rfl, hreason⟩]
  refine ⟨rfl, rfl, rfl, rfl, rfl, ?_, ?_, ?_⟩
  · rw [can_user_delete_window]
  · intro hfresh
    rw [getWindow_setKey, can_user_delete_window, pruneWindow_of_fresh now _ hfresh]
  · intro s' h'
    rw [if_pos h']

/-- C1 amended witness: fresh user, missing reason, limiter permits, the
missing-reason error comes back and stats are untouched. -/
theorem missing_reason_after_limiter_witness :
    (can_user_delete 100 "u" empty_state).can_delete = true ∧
    (delete_homework 100 "u" 1 none empty_state).1 =
      ⟨false, missing_reason_message⟩ ∧
    (delete_homework 100 "u" 1 none empty_state).2.user_stats =
      empty_state.user_stats := by
  have h := missing_reason_after_limiter 100 "u" 1 none empty_state
    (by decide) (Or.inl rfl)
  exact ⟨by decide, h.1, h.2.2.2.1⟩

/-- C8 counterexample: a score-25 user who is also over the hourly cap is
denied with the cap message rather than the restriction message, and the
check mutates the stored window by pruning it. -/
theorem claim8_cex :
    get_trust_score "u" cex_state_8 = 25 ∧
    (can_user_delete 3700 "u" cex_state_8).can_delete = false ∧
    (can_user_delete 3700 "u" cex_state_8).message ≠ restricted_message ∧
    (can_user_delete 3700 "u" cex_state_8).window ≠ getWindow "u" cex_state_8 := by
  refine ⟨by decide, by decide, ?_, by decide⟩
  rw [show (can_user_delete 3700 "u" cex_state_8).message =
        "每小时最多删除 3 次（已用：3次）" from rfl]
  decide

/-- C8 amended: a score below 30 makes the check deny with the restriction
message provided the pruned window is below the cap and outside cooldown;
the stored window is only pruned, hence unchanged when all entries are
within the trailing hour. -/
theorem low_trust_denies (now : ℤ) (u : String) (s : AppState)
    (hscore : get_trust_score u s < 30)
    (hlen : (pruneWindow now (getWindow u s)).length < max_per_hour)
    (hnc : ¬(pruneWindow now (getWindow u s) ≠ [] ∧
        now - (pruneWindow now (getWindow u s)).getLast?.getD 0 <
          (cooldown_minutes : ℤ) * 60)) :
    (can_user_delete now u s).can_delete = false ∧
    (can_user_delete now u s).message = restricted_message ∧
    (can_user_delete now u s).window = pruneWindow now (getWindow u s) ∧
    ((∀ t ∈ getWindow u s, now - t ≤ 3600) →
      (can_user_delete now u s).window = getWindow u s) := by
  have hmain : (can_user_delete now u s).can_delete = false ∧
      (can_user_delete now u s).message = restricted_message := by
    unfold can_user_delete
    rw [if_neg (by omega), if_neg hnc, if_pos hscore]
    exact ⟨rfl, rfl⟩
  refine ⟨hmain.1, hmain.2, can_user_delete_window now u s, fun hfresh => ?_⟩
  rw [can_user_delete_window, pruneWindow_of_fresh now _ hfresh]

/-- C8 amended witness: score 25, one fresh delete 400 s ago, denial carries
the restriction message and the window is unchanged. -/
theorem low_trust_denies_witness :
    get_trust_score "u" wit_state_8 < 30 ∧
    (can_user_delete 500 "u" wit_state_8).can_delete = false ∧
    (can_user_delete 500 "u" wit_state_8).message = restricted_message ∧
    (can_user_delete 500 "u" wit_state_8).window = getWindow "u" wit_state_8 := by
  have h := low_trust_denies 500 "u" wit_state_8 (by decide) (by decide) (by decide)
  exact ⟨by decide, h.1, h.2.1, h.2.2.2 (by decide)⟩

/-- C9 counterexample: a permitted delete of an unknown id aborts with the
not-found error, yet the stored window is not left unchanged — the check
already pruned the stale entry. -/
theorem claim9_cex :
    (delete_homework 4000 "u" 2 (some "重复作业") cex_state_9).1 =
      ⟨false, not_found_message⟩ ∧
    (delete_homework 4000 "u" 2 (some "重复作业") cex_state_9).2.delete_operations ≠
      cex_state_9.delete_operations ∧
    getWindow "u" (delete_homework 4000 "u" 2 (some "重复作业") cex_state_9).2 = [] ∧
    getWindow "u" cex_state_9 = [0] := by
  exact ⟨by decide, by decide, by decide, by decide⟩

/-- C9 amended: when the limiter permits, a reason is supplied, and the id is
unknown, the route aborts with the not-found error and consumes no rate-limit
slot: homeworks, completions, stats, trust scores are untouched, and the
stored window is merely the pruned one (unchanged when all entries are
within the hour). -/
theorem not_found_aborts (now : ℤ) (u : String) (hw_id : ℤ)
    (reason : Option String) (s : AppState)
    (hcan : (can_user_delete now u s).can_delete = true)
    (hreason : ¬(reason = none ∨ reason = some ""))
    (habsent : s.homeworks.find? (fun hw => hw.id = hw_id) = none) :
    (delete_homework now u hw_id reason s).1 = ⟨false, not_found_message⟩ ∧
    (delete_homework now u hw_id reason s).2.homeworks = s.homeworks ∧
    (delete_homework now u hw_id reason s).2.completions = s.completions ∧
    (delete_homework now u hw_id reason s).2.user_stats = s.user_stats ∧
    (delete_homework now u hw_id reason s).2.user_trust_scores =
      s.user_trust_scores ∧
    (delete_homework now u hw_id reason s).2.delete_operations =
      setKey u (pruneWindow now (getWindow u s)) s.delete_operations ∧
    ((∀ t ∈ getWindow u s, now - t ≤ 3600) →
      getWindow u (delete_homework now u hw_id reason s).2 = getWindow u s) := by
  simp only [delete_homework]
  rw [if_neg (by simp [hcan]), if_neg (fun hc => hreason hc.2), habsent]
  refine ⟨rfl, rfl, rfl, rfl, rfl, ?_, ?_⟩
  · rw [can_user_delete_window]
  · intro hfresh
    rw [getWindow_setKey, can_user_delete_window, pruneWindow_of_fresh now _ hfresh]

/-- C9 amended witness: unknown id 2, fresh window entry 400 s old, the
not-found error comes back and the window is unchanged. -/
theorem not_found_aborts_witness :
    (can_user_delete 500 "u" wit_state_9).can_delete = true ∧
    (delete_homework 500 "u" 2 (some "信息错误") wit_state_9).1 =
      ⟨false, not_found_message⟩ ∧
    getWindow "u" (delete_homework 500 "u" 2 (some "信息错误") wit_state_9).2 =
      getWindow "u" wit_state_9 := by
  have h := not_found_aborts 500 "u" 2 (some "信息错误") wit_state_9
    (by decide) (by decide) (by decide)
  exact ⟨by decide, h.1, h.2.2.2.2.2.2 (by decide)⟩

end HomeworkApp
